import Mathlib

/-!
Shallow embedding of the IHMCMsgInterface repository
(src/ihmc_nodes/ihmc_interface_node.cpp and src/ihmc_utils/ihmc_msg_utilities.cpp).

Real values (C++ `double`) are modelled by `ℚ`: the code only copies values
around and compares the fixed execution-mode integers, it performs no
floating-point arithmetic, so exact rationals are a faithful model.

The Valkyrie robot definition (`valkyrie::num_act_joint`, `valkyrie_joint::*`,
`valkyrie_link::*`, `val::joint_names_to_indices`) and the message/parameter
headers live in external packages that are not part of this repository's
source; those definitions are modelled from the spec, as marked in their doc
comments.  Everything else is translated directly from the two source files.
-/

namespace IHMCMsg

/-- Modelled from the spec: the spec fixes the root pose at 7 slots
("root pose (7 slots)", "slot ≥ 7 (joint region)"); the external Valkyrie
definition header providing `valkyrie::num_virtual` is not in this repository. -/
def num_virtual : Nat := 7

/-- Modelled from the spec: "N (named joints, N fixed per robot model)"; the
external Valkyrie definition header providing `valkyrie::num_act_joint` is not
in this repository.  Modelled with the 28 actuated joints that appear in the
per-body-part index tables of src/ihmc_utils/ihmc_msg_utilities.cpp
(2 legs x 6 + torso 3 + 2 arms x 5 + neck 3). -/
def num_act_joint : Nat := 28

/-- Configuration-vector length: root pose slots followed by the joint region. -/
def num_q : Nat := num_virtual + num_act_joint

/-- A vector of `n` zero values, as produced by `resize` followed by `setZero`. -/
def zeroVec (n : Nat) : List ℚ := List.replicate n 0

namespace valkyrie_joint

/-- Modelled from the spec: "root-pose slots always precede joint slots in a
fixed order" (position x,y,z then orientation quaternion x,y,z,w); the external
`valkyrie_joint` enum is not in this repository. -/
def virtual_X : Nat := 0

def virtual_Y : Nat := 1

def virtual_Z : Nat := 2

def virtual_Rx : Nat := 3

def virtual_Ry : Nat := 4

def virtual_Rz : Nat := 5

def virtual_Rw : Nat := 6

def leftHipYaw : Nat := 7

def leftHipRoll : Nat := 8

def leftHipPitch : Nat := 9

def leftKneePitch : Nat := 10

def leftAnklePitch : Nat := 11

def leftAnkleRoll : Nat := 12

def rightHipYaw : Nat := 13

def rightHipRoll : Nat := 14

def rightHipPitch : Nat := 15

def rightKneePitch : Nat := 16

def rightAnklePitch : Nat := 17

def rightAnkleRoll : Nat := 18

def torsoYaw : Nat := 19

def torsoPitch : Nat := 20

def torsoRoll : Nat := 21

def leftShoulderPitch : Nat := 22

def leftShoulderRoll : Nat := 23

def leftShoulderYaw : Nat := 24

def leftElbowPitch : Nat := 25

def leftForearmYaw : Nat := 26

def lowerNeckPitch : Nat := 27

def neckYaw : Nat := 28

def upperNeckPitch : Nat := 29

def rightShoulderPitch : Nat := 30

def rightShoulderRoll : Nat := 31

def rightShoulderYaw : Nat := 32

def rightElbowPitch : Nat := 33

def rightForearmYaw : Nat := 34

end valkyrie_joint

namespace valkyrie_link

/-- Modelled from the spec: "set of link identifiers (one identifier per
controllable body part: pelvis, torso, left/right hand-support frame,
left/right palm, head)"; the external `valkyrie_link` enum is not in this
repository.  Only distinctness of the identifiers is used by the code. -/
def pelvis : Int := 1

def torso : Int := 2

def rightCOP_Frame : Int := 3

def leftCOP_Frame : Int := 4

def rightPalm : Int := 5

def leftPalm : Int := 6

def head : Int := 7

end valkyrie_link

/-- Modelled from the spec: "JointNameIndex: mapping from joint-name string to
an integer slot ≥ 7 (joint region), built once, immutable.  Unknown names are
not errors — they are simply absent from the mapping."  The external
`val::joint_names_to_indices` map is not in this repository; it is modelled as
the association list sending each actuated joint name to its slot. -/
def joint_names_to_indices : List (String × Nat) :=
  [("leftHipYaw", valkyrie_joint.leftHipYaw),
   ("leftHipRoll", valkyrie_joint.leftHipRoll),
   ("leftHipPitch", valkyrie_joint.leftHipPitch),
   ("leftKneePitch", valkyrie_joint.leftKneePitch),
   ("leftAnklePitch", valkyrie_joint.leftAnklePitch),
   ("leftAnkleRoll", valkyrie_joint.leftAnkleRoll),
   ("rightHipYaw", valkyrie_joint.rightHipYaw),
   ("rightHipRoll", valkyrie_joint.rightHipRoll),
   ("rightHipPitch", valkyrie_joint.rightHipPitch),
   ("rightKneePitch", valkyrie_joint.rightKneePitch),
   ("rightAnklePitch", valkyrie_joint.rightAnklePitch),
   ("rightAnkleRoll", valkyrie_joint.rightAnkleRoll),
   ("torsoYaw", valkyrie_joint.torsoYaw),
   ("torsoPitch", valkyrie_joint.torsoPitch),
   ("torsoRoll", valkyrie_joint.torsoRoll),
   ("leftShoulderPitch", valkyrie_joint.leftShoulderPitch),
   ("leftShoulderRoll", valkyrie_joint.leftShoulderRoll),
   ("leftShoulderYaw", valkyrie_joint.leftShoulderYaw),
   ("leftElbowPitch", valkyrie_joint.leftElbowPitch),
   ("leftForearmYaw", valkyrie_joint.leftForearmYaw),
   ("lowerNeckPitch", valkyrie_joint.lowerNeckPitch),
   ("neckYaw", valkyrie_joint.neckYaw),
   ("upperNeckPitch", valkyrie_joint.upperNeckPitch),
   ("rightShoulderPitch", valkyrie_joint.rightShoulderPitch),
   ("rightShoulderRoll", valkyrie_joint.rightShoulderRoll),
   ("rightShoulderYaw", valkyrie_joint.rightShoulderYaw),
   ("rightElbowPitch", valkyrie_joint.rightElbowPitch),
   ("rightForearmYaw", valkyrie_joint.rightForearmYaw)]

/-- A 3-component vector.  Models `tf::Vector3`, `dynacore::Vect3`,
`geometry_msgs::Point` and `geometry_msgs::Vector3`, all of which the code
converts between component-wise. -/
structure Vect3 where
  x : ℚ
  y : ℚ
  z : ℚ
deriving DecidableEq, Repr

/-- A quaternion.  Models `tf::Quaternion`, `dynacore::Quaternion` and
`geometry_msgs::Quaternion`, which the code converts between component-wise
(`dynacore::convert` copies x,y,z,w unchanged). -/
structure Quat where
  x : ℚ
  y : ℚ
  z : ℚ
  w : ℚ
deriving DecidableEq, Repr

/-- geometry_msgs::TransformStamped, restricted to the fields the node reads. -/
structure TransformMsg where
  translation : Vect3
  rotation : Quat
deriving DecidableEq, Repr

/-- std_msgs::Int32MultiArray, restricted to the data field. -/
structure LinksMsg where
  data : List Int
deriving DecidableEq, Repr

/-- sensor_msgs::JointState, restricted to the fields the node reads. -/
structure JointStateMsg where
  name : List String
  position : List ℚ
deriving DecidableEq, Repr

/-- std_msgs::String. -/
structure StatusMsg where
  data : String
deriving DecidableEq, Repr

/-- The mutable state of `IHMCInterfaceNode`, field for field.  The ROS
plumbing (node handle, topic names, subscribers, publishers) is owned by the
excluded transport collaborator and carries no core state, so it is omitted. -/
structure NodeState where
  commands_from_controllers_ : Bool
  receive_pelvis_transform_ : Bool
  received_pelvis_transform_ : Bool
  receive_link_ids_ : Bool
  received_link_ids_ : Bool
  receive_joint_command_ : Bool
  received_joint_command_ : Bool
  publish_commands_ : Bool
  stop_node_ : Bool
  home_left_arm_ : Bool
  home_right_arm_ : Bool
  home_chest_ : Bool
  home_pelvis_ : Bool
  publish_go_home_command_ : Bool
  status_ : String
  controlled_links_ : List Int
  tf_pelvis_origin_ : Vect3
  tf_pelvis_rotation_ : Quat
  q_joint_ : List ℚ
  q_ : List ℚ
deriving DecidableEq, Repr

/-- IHMCInterfaceNode::updatePublishCommandsFlag. -/
def updatePublishCommandsFlag (s : NodeState) : NodeState :=
  { s with publish_commands_ :=
      s.received_pelvis_transform_ && s.received_link_ids_ && s.received_joint_command_ }

/-- IHMCInterfaceNode::updateStopNodeFlag. -/
def updateStopNodeFlag (s : NodeState) : NodeState :=
  { s with stop_node_ := !s.receive_pelvis_transform_ && !s.receive_joint_command_ }

/-- IHMCInterfaceNode::updatePublishGoHomeCommandFlag. -/
def updatePublishGoHomeCommandFlag (s : NodeState) : NodeState :=
  { s with publish_go_home_command_ :=
      s.home_left_arm_ || s.home_right_arm_ || s.home_chest_ || s.home_pelvis_ }

/-- The constructor `IHMCInterfaceNode::IHMCInterfaceNode`, restricted to the
state fields (topic-name plumbing omitted).  The `tf_pelvis_wrt_world_` member
is default-constructed (uninitialized until the first transform message); it
is modelled as the zero origin with the identity quaternion. -/
def initNode (commands_from_controllers : Bool) : NodeState :=
  { commands_from_controllers_ := commands_from_controllers
    receive_pelvis_transform_ := !commands_from_controllers
    received_pelvis_transform_ := false
    receive_link_ids_ := false
    received_link_ids_ := !commands_from_controllers
    receive_joint_command_ := !commands_from_controllers
    received_joint_command_ := false
    publish_commands_ := false
    stop_node_ := false
    home_left_arm_ := false
    home_right_arm_ := false
    home_chest_ := false
    home_pelvis_ := false
    publish_go_home_command_ := false
    status_ := ""
    controlled_links_ :=
      if commands_from_controllers then []
      else [valkyrie_link.pelvis, valkyrie_link.torso, valkyrie_link.rightCOP_Frame,
            valkyrie_link.leftCOP_Frame, valkyrie_link.rightPalm, valkyrie_link.leftPalm,
            valkyrie_link.head]
    tf_pelvis_origin_ := ⟨0, 0, 0⟩
    tf_pelvis_rotation_ := ⟨0, 0, 0, 1⟩
    q_joint_ := []
    q_ := [] }

/-- IHMCInterfaceNode::transformCallback. -/
def transformCallback (msg : TransformMsg) (s : NodeState) : NodeState :=
  let s1 :=
    if s.receive_pelvis_transform_ then
      let s2 := { s with tf_pelvis_origin_ := msg.translation
                         tf_pelvis_rotation_ := msg.rotation
                         received_pelvis_transform_ := true }
      if !s2.commands_from_controllers_ then
        { s2 with receive_pelvis_transform_ := false }
      else s2
    else s
  updateStopNodeFlag (updatePublishCommandsFlag s1)

/-- IHMCInterfaceNode::controlledLinkIdsCallback (the clear-then-push loop
replaces the stored link vector with the message contents wholesale). -/
def controlledLinkIdsCallback (msg : LinksMsg) (s : NodeState) : NodeState :=
  let s1 :=
    if s.receive_link_ids_ then
      let s2 := { s with controlled_links_ := msg.data
                         received_link_ids_ := true }
      if !s2.commands_from_controllers_ then
        { s2 with receive_link_ids_ := false }
      else s2
    else s
  updateStopNodeFlag (updatePublishCommandsFlag s1)

/-- The body of one iteration of the loop in
IHMCInterfaceNode::jointCommandCallback: look the joint name up in
`val::joint_names_to_indices`; if found, write the position into the slot
offset by the virtual-joint count; otherwise leave the vector unchanged. -/
def applyJointPair (q : List ℚ) (nm : String) (v : ℚ) : List ℚ :=
  match List.lookup nm joint_names_to_indices with
  | some idx => q.set (idx - num_virtual) v
  | none => q

/-- The loop of IHMCInterfaceNode::jointCommandCallback: iterate `i` over the
position list, reading `name[i]` at the same index.  Reading `name[i]` out of
bounds is undefined behaviour in the C++ source; it is modelled as `none`. -/
def jointCommandLoop (names : List String) :
    List ℚ → Nat → List ℚ → Option (List ℚ)
  | [], _, q => some q
  | v :: vs, i, q =>
    match names.get? i with
    | none => none
    | some nm => jointCommandLoop names vs (i + 1) (applyJointPair q nm v)

/-- IHMCInterfaceNode::jointCommandCallback.  Returns `none` exactly when the
C++ loop would index the name list out of bounds (undefined behaviour). -/
def jointCommandCallback (msg : JointStateMsg) (s : NodeState) : Option NodeState :=
  let s1opt :=
    if s.receive_joint_command_ then
      match jointCommandLoop msg.name msg.position 0 (zeroVec num_act_joint) with
      | none => none
      | some qj =>
        let s2 := { s with q_joint_ := qj
                           received_joint_command_ := true }
        some (if !s2.commands_from_controllers_ then
                { s2 with receive_joint_command_ := false }
              else s2)
    else some s
  s1opt.map (fun s1 => updateStopNodeFlag (updatePublishCommandsFlag s1))

/-- IHMCInterfaceNode::statusCallback. -/
def statusCallback (msg : StatusMsg) (s : NodeState) : NodeState :=
  if msg.data = "STOP-LISTENING" then
    updateStopNodeFlag (updatePublishCommandsFlag
      { s with status_ := msg.data
               receive_pelvis_transform_ := false
               received_pelvis_transform_ := false
               receive_link_ids_ := false
               received_link_ids_ := false
               receive_joint_command_ := false
               received_joint_command_ := false })
  else if msg.data = "START-LISTENING" then
    updateStopNodeFlag (updatePublishCommandsFlag
      { s with status_ := msg.data
               receive_pelvis_transform_ := true
               received_pelvis_transform_ := false
               receive_link_ids_ := true
               received_link_ids_ := false
               receive_joint_command_ := true
               received_joint_command_ := false })
  else if msg.data = "HOME-LEFTARM" then
    updatePublishGoHomeCommandFlag { s with status_ := msg.data, home_left_arm_ := true }
  else if msg.data = "HOME-RIGHTARM" then
    updatePublishGoHomeCommandFlag { s with status_ := msg.data, home_right_arm_ := true }
  else if msg.data = "HOME-CHEST" then
    updatePublishGoHomeCommandFlag { s with status_ := msg.data, home_chest_ := true }
  else if msg.data = "HOME-PELVIS" then
    updatePublishGoHomeCommandFlag { s with status_ := msg.data, home_pelvis_ := true }
  else s

/-- IHMCInterfaceNode::prepareConfigurationVector: zero the configuration
vector, write the stored pelvis pose into the seven root slots, then copy the
stored joint vector into the joint region offset by the virtual-joint count. -/
def prepareConfigurationVector (s : NodeState) : List ℚ :=
  let q0 := zeroVec num_q
  let q1 := q0.set valkyrie_joint.virtual_X s.tf_pelvis_origin_.x
  let q2 := q1.set valkyrie_joint.virtual_Y s.tf_pelvis_origin_.y
  let q3 := q2.set valkyrie_joint.virtual_Z s.tf_pelvis_origin_.z
  let q4 := q3.set valkyrie_joint.virtual_Rx s.tf_pelvis_rotation_.x
  let q5 := q4.set valkyrie_joint.virtual_Ry s.tf_pelvis_rotation_.y
  let q6 := q5.set valkyrie_joint.virtual_Rz s.tf_pelvis_rotation_.z
  let q7 := q6.set valkyrie_joint.virtual_Rw s.tf_pelvis_rotation_.w
  s.q_joint_.enum.foldl (fun acc p => acc.set (p.1 + num_virtual) p.2) q7

/-- Modelled from the spec: queueing metadata defaults of the external
`IHMCMessageParameters` header ("If operating in one-shot mode, execution mode
= override", i.e. 0; 0 override, 1 queue, 2 stream).  The message-id defaults
are not constrained by any claim. -/
structure QueueableParams where
  execution_mode : Int
  message_id : Int
  previous_message_id : Int
  stream_integration_duration : ℚ
deriving DecidableEq, Repr

/-- Modelled from the spec: trajectory-point parameter of the external
`IHMCMessageParameters` header ("trajectory-point time = 1.0" in one-shot
mode, the default). -/
structure TrajPointParams where
  time : ℚ
deriving DecidableEq, Repr

/-- Modelled from the spec: "HomeCommand: body-part enum + (for arms) side
enum + trajectory duration scalar"; the duration default of the external
header is not constrained by any claim. -/
structure GoHomeParams where
  trajectory_time : ℚ
deriving DecidableEq, Repr

/-- Modelled from the spec: reference-frame identifiers of the external
`IHMCMessageParameters` header ("a reference-frame pair"); only passed
through, never inspected. -/
structure FrameParams where
  trajectory_reference_frame_id_world : Int
  data_reference_frame_id_world : Int
  trajectory_reference_frame_id_pelviszup : Int
deriving DecidableEq, Repr

/-- Modelled from the spec: per-axis selection parameters ("always all axes
selected"). -/
structure SelectionMatrixParams where
  selection_frame_id : Int
  x_selected : Bool
  y_selected : Bool
  z_selected : Bool
deriving DecidableEq, Repr

/-- Modelled from the spec: per-axis weight parameters ("default weights"). -/
structure WeightMatrixParams where
  weight_frame_id : Int
  x_weight : ℚ
  y_weight : ℚ
  z_weight : ℚ
deriving DecidableEq, Repr

/-- Modelled from the spec: arm-message parameter of the external header. -/
structure ArmParams where
  force_execution : Bool
deriving DecidableEq, Repr

/-- Modelled from the spec: pelvis-message parameters of the external header. -/
structure PelvisParams where
  force_execution : Bool
  enable_user_pelvis_control : Bool
  enable_user_pelvis_control_during_walking : Bool
deriving DecidableEq, Repr

/-- Modelled from the spec: single-joint trajectory weight parameter. -/
structure OneDoFJointParams where
  weight : ℚ
deriving DecidableEq, Repr

/-- Modelled from the spec: custom-control-frame flag for SE3/SO3 messages. -/
structure SE3SO3Params where
  use_custom_control_frame : Bool
deriving DecidableEq, Repr

/-- Modelled from the spec: the external `IHMCMessageParameters` struct that
the two source files consume, with one field per parameter they read. -/
structure IHMCMessageParameters where
  sequence_id : Int
  controlled_links : List Int
  queueable_params : QueueableParams
  traj_point_params : TrajPointParams
  go_home_params : GoHomeParams
  frame_params : FrameParams
  selection_matrix_params : SelectionMatrixParams
  weight_matrix_params : WeightMatrixParams
  arm_params : ArmParams
  pelvis_params : PelvisParams
  onedof_joint_params : OneDoFJointParams
  se3so3_params : SE3SO3Params
deriving DecidableEq, Repr

/-- Modelled from the spec: default-constructed `IHMCMessageParameters`
(one-shot defaults: execution mode override = 0, trajectory-point time 1.0,
all axes selected, default weights).  Fields no claim constrains carry
arbitrary modelled defaults. -/
def defaultIHMCMessageParameters : IHMCMessageParameters :=
  { sequence_id := 0
    controlled_links := []
    queueable_params :=
      { execution_mode := 0, message_id := 0, previous_message_id := 0
        stream_integration_duration := 0 }
    traj_point_params := { time := 1 }
    go_home_params := { trajectory_time := 4 }
    frame_params :=
      { trajectory_reference_frame_id_world := 1
        data_reference_frame_id_world := 1
        trajectory_reference_frame_id_pelviszup := 2 }
    selection_matrix_params :=
      { selection_frame_id := 0, x_selected := true, y_selected := true, z_selected := true }
    weight_matrix_params :=
      { weight_frame_id := 0, x_weight := -1, y_weight := -1, z_weight := -1 }
    arm_params := { force_execution := false }
    pelvis_params :=
      { force_execution := false
        enable_user_pelvis_control := false
        enable_user_pelvis_control_during_walking := false }
    onedof_joint_params := { weight := -1 }
    se3so3_params := { use_custom_control_frame := false } }

/-- geometry_msgs::Pose (position + orientation). -/
structure PoseMsg where
  position : Vect3
  orientation : Quat
deriving DecidableEq, Repr

/-- controller_msgs::FrameInformation. -/
structure FrameInformation where
  sequence_id : Int
  trajectory_reference_frame_id : Int
  data_reference_frame_id : Int
deriving DecidableEq, Repr

/-- controller_msgs::SelectionMatrix3DMessage. -/
structure SelectionMatrix3DMessage where
  sequence_id : Int
  selection_frame_id : Int
  x_selected : Bool
  y_selected : Bool
  z_selected : Bool
deriving DecidableEq, Repr

/-- controller_msgs::WeightMatrix3DMessage. -/
structure WeightMatrix3DMessage where
  sequence_id : Int
  weight_frame_id : Int
  x_weight : ℚ
  y_weight : ℚ
  z_weight : ℚ
deriving DecidableEq, Repr

/-- controller_msgs::QueueableMessage.  `previous_message_id` and
`stream_integration_duration` are `Option`s: the source assigns them only in
queueing (mode 1) and streaming (mode 2) respectively, leaving the wire
default otherwise. -/
structure QueueableMessage where
  sequence_id : Int
  execution_mode : Int
  message_id : Int
  previous_message_id : Option Int
  stream_integration_duration : Option ℚ
  timestamp : Int
deriving DecidableEq, Repr

/-- controller_msgs::TrajectoryPoint1DMessage. -/
structure TrajectoryPoint1DMessage where
  sequence_id : Int
  time : ℚ
  position : ℚ
  velocity : ℚ
deriving DecidableEq, Repr

/-- controller_msgs::OneDoFJointTrajectoryMessage. -/
structure OneDoFJointTrajectoryMessage where
  sequence_id : Int
  weight : ℚ
  trajectory_points : List TrajectoryPoint1DMessage
deriving DecidableEq, Repr

/-- controller_msgs::JointspaceTrajectoryMessage. -/
structure JointspaceTrajectoryMessage where
  sequence_id : Int
  queueing_properties : QueueableMessage
  joint_trajectory_messages : List OneDoFJointTrajectoryMessage
deriving DecidableEq, Repr

/-- controller_msgs::SE3TrajectoryPointMessage. -/
structure SE3TrajectoryPointMessage where
  sequence_id : Int
  time : ℚ
  position : Vect3
  orientation : Quat
  linear_velocity : Vect3
  angular_velocity : Vect3
deriving DecidableEq, Repr

/-- controller_msgs::SO3TrajectoryPointMessage. -/
structure SO3TrajectoryPointMessage where
  sequence_id : Int
  time : ℚ
  orientation : Quat
  angular_velocity : Vect3
deriving DecidableEq, Repr

/-- controller_msgs::SE3TrajectoryMessage. -/
structure SE3TrajectoryMessage where
  sequence_id : Int
  use_custom_control_frame : Bool
  control_frame_pose : PoseMsg
  queueing_properties : QueueableMessage
  frame_information : FrameInformation
  angular_selection_matrix : SelectionMatrix3DMessage
  linear_selection_matrix : SelectionMatrix3DMessage
  angular_weight_matrix : WeightMatrix3DMessage
  linear_weight_matrix : WeightMatrix3DMessage
  taskspace_trajectory_points : List SE3TrajectoryPointMessage
deriving DecidableEq, Repr

/-- controller_msgs::SO3TrajectoryMessage. -/
structure SO3TrajectoryMessage where
  sequence_id : Int
  use_custom_control_frame : Bool
  control_frame_pose : PoseMsg
  queueing_properties : QueueableMessage
  frame_information : FrameInformation
  selection_matrix : SelectionMatrix3DMessage
  weight_matrix : WeightMatrix3DMessage
  taskspace_trajectory_points : List SO3TrajectoryPointMessage
deriving DecidableEq, Repr

/-- controller_msgs::ArmTrajectoryMessage. -/
structure ArmTrajectoryMessage where
  sequence_id : Int
  robot_side : Int
  force_execution : Bool
  jointspace_trajectory : JointspaceTrajectoryMessage
deriving DecidableEq, Repr

/-- controller_msgs::ChestTrajectoryMessage. -/
structure ChestTrajectoryMessage where
  sequence_id : Int
  so3_trajectory : SO3TrajectoryMessage
deriving DecidableEq, Repr

/-- controller_msgs::PelvisTrajectoryMessage. -/
structure PelvisTrajectoryMessage where
  sequence_id : Int
  force_execution : Bool
  enable_user_pelvis_control : Bool
  enable_user_pelvis_control_during_walking : Bool
  se3_trajectory : SE3TrajectoryMessage
deriving DecidableEq, Repr

/-- controller_msgs::NeckTrajectoryMessage. -/
structure NeckTrajectoryMessage where
  sequence_id : Int
  jointspace_trajectory : JointspaceTrajectoryMessage
deriving DecidableEq, Repr

/-- controller_msgs::WholeBodyTrajectoryMessage, restricted to the sub-parts
the source populates.  A sub-part the source does not set is `none`
("Sub-parts not controlled for the current link set are omitted entirely"). -/
structure WholeBodyTrajectoryMessage where
  sequence_id : Int
  left_arm_trajectory_message : Option ArmTrajectoryMessage
  right_arm_trajectory_message : Option ArmTrajectoryMessage
  chest_trajectory_message : Option ChestTrajectoryMessage
  pelvis_trajectory_message : Option PelvisTrajectoryMessage
  neck_trajectory_message : Option NeckTrajectoryMessage
deriving DecidableEq, Repr

/-- controller_msgs::GoHomeMessage.  The body-part constants of the external
message definition are modelled as ARM = 0, CHEST = 1, PELVIS = 2 and
LEFT = 0, RIGHT = 1; `robot_side` is `none` when the source does not set it
(chest, pelvis). -/
structure GoHomeMessage where
  humanoid_body_part : Int
  robot_side : Option Int
  trajectory_time : ℚ
deriving DecidableEq, Repr

/-- Modelled constant of the external GoHomeMessage definition. -/
def HUMANOID_BODY_PART_ARM : Int := 0

/-- Modelled constant of the external GoHomeMessage definition. -/
def HUMANOID_BODY_PART_CHEST : Int := 1

/-- Modelled constant of the external GoHomeMessage definition. -/
def HUMANOID_BODY_PART_PELVIS : Int := 2

/-- Modelled constant of the external GoHomeMessage definition. -/
def ROBOT_SIDE_LEFT : Int := 0

/-- Modelled constant of the external GoHomeMessage definition. -/
def ROBOT_SIDE_RIGHT : Int := 1

/-- Modelled from the spec: ROSMsgUtils::makeZeroPoseMessage of the external
ROS message utilities ("setting pose to all zeros"). -/
def makeZeroPoseMessage : PoseMsg :=
  { position := ⟨0, 0, 0⟩, orientation := ⟨0, 0, 0, 0⟩ }

/-- IHMCMsgUtils::makeIHMCQueueableMessage.  The wall-clock timestamp read
from `std::chrono::system_clock::now()` is an external effect, passed in as
`now`. -/
def makeIHMCQueueableMessage (msg_params : IHMCMessageParameters) (now : Int) :
    QueueableMessage :=
  { sequence_id := msg_params.sequence_id
    execution_mode := msg_params.queueable_params.execution_mode
    message_id := msg_params.queueable_params.message_id
    previous_message_id :=
      if msg_params.queueable_params.execution_mode = 1 then
        some msg_params.queueable_params.previous_message_id
      else none
    stream_integration_duration :=
      if msg_params.queueable_params.execution_mode = 2 then
        some msg_params.queueable_params.stream_integration_duration
      else none
    timestamp := now }

/-- IHMCMsgUtils::makeIHMCTrajectoryPoint1DMessage. -/
def makeIHMCTrajectoryPoint1DMessage (q_joint : ℚ)
    (msg_params : IHMCMessageParameters) : TrajectoryPoint1DMessage :=
  { sequence_id := msg_params.sequence_id
    time := msg_params.traj_point_params.time
    position := q_joint
    velocity := 0 }

/-- IHMCMsgUtils::makeIHMCOneDoFJointTrajectoryMessage. -/
def makeIHMCOneDoFJointTrajectoryMessage (q_joint : ℚ)
    (msg_params : IHMCMessageParameters) : OneDoFJointTrajectoryMessage :=
  { sequence_id := msg_params.sequence_id
    weight := msg_params.onedof_joint_params.weight
    trajectory_points := [makeIHMCTrajectoryPoint1DMessage q_joint msg_params] }

/-- IHMCMsgUtils::makeIHMCJointspaceTrajectoryMessage (the push-back loop
builds one OneDoF message per entry of the joint vector, in order). -/
def makeIHMCJointspaceTrajectoryMessage (q_joints : List ℚ)
    (msg_params : IHMCMessageParameters) (now : Int) : JointspaceTrajectoryMessage :=
  { sequence_id := msg_params.sequence_id
    queueing_properties := makeIHMCQueueableMessage msg_params now
    joint_trajectory_messages :=
      q_joints.map (fun v => makeIHMCOneDoFJointTrajectoryMessage v msg_params) }

/-- IHMCMsgUtils::makeIHMCFrameInformationMessage. -/
def makeIHMCFrameInformationMessage (trajectory_reference_frame_id : Int)
    (data_reference_frame_id : Int) (msg_params : IHMCMessageParameters) :
    FrameInformation :=
  { sequence_id := msg_params.sequence_id
    trajectory_reference_frame_id := trajectory_reference_frame_id
    data_reference_frame_id := data_reference_frame_id }

/-- IHMCMsgUtils::makeIHMCSelectionMatrix3DMessage. -/
def makeIHMCSelectionMatrix3DMessage (msg_params : IHMCMessageParameters) :
    SelectionMatrix3DMessage :=
  { sequence_id := msg_params.sequence_id
    selection_frame_id := msg_params.selection_matrix_params.selection_frame_id
    x_selected := msg_params.selection_matrix_params.x_selected
    y_selected := msg_params.selection_matrix_params.y_selected
    z_selected := msg_params.selection_matrix_params.z_selected }

/-- IHMCMsgUtils::makeIHMCWeightMatrix3DMessage. -/
def makeIHMCWeightMatrix3DMessage (msg_params : IHMCMessageParameters) :
    WeightMatrix3DMessage :=
  { sequence_id := msg_params.sequence_id
    weight_frame_id := msg_params.weight_matrix_params.weight_frame_id
    x_weight := msg_params.weight_matrix_params.x_weight
    y_weight := msg_params.weight_matrix_params.y_weight
    z_weight := msg_params.weight_matrix_params.z_weight }

/-- IHMCMsgUtils::makeIHMCSE3TrajectoryPointMessage. -/
def makeIHMCSE3TrajectoryPointMessage (pos : Vect3) (quat : Quat)
    (msg_params : IHMCMessageParameters) : SE3TrajectoryPointMessage :=
  { sequence_id := msg_params.sequence_id
    time := msg_params.traj_point_params.time
    position := pos
    orientation := quat
    linear_velocity := ⟨0, 0, 0⟩
    angular_velocity := ⟨0, 0, 0⟩ }

/-- IHMCMsgUtils::makeIHMCSO3TrajectoryPointMessage. -/
def makeIHMCSO3TrajectoryPointMessage (quat : Quat)
    (msg_params : IHMCMessageParameters) : SO3TrajectoryPointMessage :=
  { sequence_id := msg_params.sequence_id
    time := msg_params.traj_point_params.time
    orientation := quat
    angular_velocity := ⟨0, 0, 0⟩ }

/-- IHMCMsgUtils::makeIHMCSE3TrajectoryMessage. -/
def makeIHMCSE3TrajectoryMessage (pos : Vect3) (quat : Quat)
    (trajectory_reference_frame_id : Int) (data_reference_frame_id : Int)
    (msg_params : IHMCMessageParameters) (now : Int) : SE3TrajectoryMessage :=
  { sequence_id := msg_params.sequence_id
    use_custom_control_frame := msg_params.se3so3_params.use_custom_control_frame
    control_frame_pose := makeZeroPoseMessage
    queueing_properties := makeIHMCQueueableMessage msg_params now
    frame_information :=
      makeIHMCFrameInformationMessage trajectory_reference_frame_id
        data_reference_frame_id msg_params
    angular_selection_matrix := makeIHMCSelectionMatrix3DMessage msg_params
    linear_selection_matrix := makeIHMCSelectionMatrix3DMessage msg_params
    angular_weight_matrix := makeIHMCWeightMatrix3DMessage msg_params
    linear_weight_matrix := makeIHMCWeightMatrix3DMessage msg_params
    taskspace_trajectory_points := [makeIHMCSE3TrajectoryPointMessage pos quat msg_params] }

/-- IHMCMsgUtils::makeIHMCSO3TrajectoryMessage. -/
def makeIHMCSO3TrajectoryMessage (quat : Quat)
    (trajectory_reference_frame_id : Int) (data_reference_frame_id : Int)
    (msg_params : IHMCMessageParameters) (now : Int) : SO3TrajectoryMessage :=
  { sequence_id := msg_params.sequence_id
    use_custom_control_frame := msg_params.se3so3_params.use_custom_control_frame
    control_frame_pose := makeZeroPoseMessage
    queueing_properties := makeIHMCQueueableMessage msg_params now
    frame_information :=
      makeIHMCFrameInformationMessage trajectory_reference_frame_id
        data_reference_frame_id msg_params
    selection_matrix := makeIHMCSelectionMatrix3DMessage msg_params
    weight_matrix := makeIHMCWeightMatrix3DMessage msg_params
    taskspace_trajectory_points := [makeIHMCSO3TrajectoryPointMessage quat msg_params] }

/-- IHMCMsgUtils::makeIHMCArmTrajectoryMessage. -/
def makeIHMCArmTrajectoryMessage (q_joints : List ℚ) (robot_side : Int)
    (msg_params : IHMCMessageParameters) (now : Int) : ArmTrajectoryMessage :=
  { sequence_id := msg_params.sequence_id
    robot_side := robot_side
    force_execution := msg_params.arm_params.force_execution
    jointspace_trajectory := makeIHMCJointspaceTrajectoryMessage q_joints msg_params now }

/-- IHMCMsgUtils::makeIHMCChestTrajectoryMessage. -/
def makeIHMCChestTrajectoryMessage (quat : Quat)
    (msg_params : IHMCMessageParameters) (now : Int) : ChestTrajectoryMessage :=
  { sequence_id := msg_params.sequence_id
    so3_trajectory :=
      makeIHMCSO3TrajectoryMessage quat
        msg_params.frame_params.trajectory_reference_frame_id_pelviszup
        msg_params.frame_params.data_reference_frame_id_world
        msg_params now }

/-- IHMCMsgUtils::makeIHMCNeckTrajectoryMessage. -/
def makeIHMCNeckTrajectoryMessage (q_joints : List ℚ)
    (msg_params : IHMCMessageParameters) (now : Int) : NeckTrajectoryMessage :=
  { sequence_id := msg_params.sequence_id
    jointspace_trajectory := makeIHMCJointspaceTrajectoryMessage q_joints msg_params now }

/-- IHMCMsgUtils::getPelvisPose: read position from slots 0..2 and
orientation from slots 3..6 of the given (pelvis-selected) configuration. -/
def getPelvisPose (q_joints : List ℚ) : Vect3 × Quat :=
  (⟨q_joints.getD 0 0, q_joints.getD 1 0, q_joints.getD 2 0⟩,
   ⟨q_joints.getD 3 0, q_joints.getD 4 0, q_joints.getD 5 0, q_joints.getD 6 0⟩)

/-- IHMCMsgUtils::makeIHMCPelvisTrajectoryMessage. -/
def makeIHMCPelvisTrajectoryMessage (q_joints : List ℚ)
    (msg_params : IHMCMessageParameters) (now : Int) : PelvisTrajectoryMessage :=
  let pose := getPelvisPose q_joints
  { sequence_id := msg_params.sequence_id
    force_execution := msg_params.pelvis_params.force_execution
    enable_user_pelvis_control := msg_params.pelvis_params.enable_user_pelvis_control
    enable_user_pelvis_control_during_walking :=
      msg_params.pelvis_params.enable_user_pelvis_control_during_walking
    se3_trajectory :=
      makeIHMCSE3TrajectoryMessage pose.1 pose.2
        msg_params.frame_params.trajectory_reference_frame_id_world
        msg_params.frame_params.data_reference_frame_id_world
        msg_params now }

/-- IHMCMsgUtils::selectRelevantJointsConfiguration: for each listed index,
substitute 0 for the sentinel -1, otherwise copy the configuration value at
that index. -/
def selectRelevantJointsConfiguration (q : List ℚ) (joint_indices : List Int) :
    List ℚ :=
  joint_indices.map (fun idx => if idx = -1 then 0 else q.getD idx.toNat 0)

/-- IHMCMsgUtils::getRelevantJointIndicesPelvis. -/
def getRelevantJointIndicesPelvis : List Int :=
  [valkyrie_joint.virtual_X, valkyrie_joint.virtual_Y, valkyrie_joint.virtual_Z,
   valkyrie_joint.virtual_Rx, valkyrie_joint.virtual_Ry, valkyrie_joint.virtual_Rz,
   valkyrie_joint.virtual_Rw]

/-- IHMCMsgUtils::getRelevantJointIndicesLeftArm: the five modeled left-arm
joints followed by the two sentinel wrist entries. -/
def getRelevantJointIndicesLeftArm : List Int :=
  [valkyrie_joint.leftShoulderPitch, valkyrie_joint.leftShoulderRoll,
   valkyrie_joint.leftShoulderYaw, valkyrie_joint.leftElbowPitch,
   valkyrie_joint.leftForearmYaw, -1, -1]

/-- IHMCMsgUtils::getRelevantJointIndicesRightArm. -/
def getRelevantJointIndicesRightArm : List Int :=
  [valkyrie_joint.rightShoulderPitch, valkyrie_joint.rightShoulderRoll,
   valkyrie_joint.rightShoulderYaw, valkyrie_joint.rightElbowPitch,
   valkyrie_joint.rightForearmYaw, -1, -1]

/-- IHMCMsgUtils::getRelevantJointIndicesNeck. -/
def getRelevantJointIndicesNeck : List Int :=
  [valkyrie_joint.lowerNeckPitch, valkyrie_joint.neckYaw, valkyrie_joint.upperNeckPitch]

/-- IHMCMsgUtils::checkControlledLink: membership test on the link vector. -/
def checkControlledLink (controlled_links : List Int) (link_id : Int) : Bool :=
  controlled_links.contains link_id

/-- IHMCMsgUtils::makeIHMCWholeBodyTrajectoryMessage.  The chest orientation
is computed by the external Valkyrie kinematic model
(IHMCMsgUtils::getChestOrientation constructs a `Valkyrie_Model` and queries
the torso orientation); that collaborator is passed in as `chestOri`. -/
def makeIHMCWholeBodyTrajectoryMessage (q : List ℚ)
    (msg_params : IHMCMessageParameters) (chestOri : List ℚ → Quat) (now : Int) :
    WholeBodyTrajectoryMessage :=
  let control_pelvis := checkControlledLink msg_params.controlled_links valkyrie_link.pelvis
  let control_chest := checkControlledLink msg_params.controlled_links valkyrie_link.torso
  let control_rarm := checkControlledLink msg_params.controlled_links valkyrie_link.rightPalm
  let control_larm := checkControlledLink msg_params.controlled_links valkyrie_link.leftPalm
  let control_neck := checkControlledLink msg_params.controlled_links valkyrie_link.head
  { sequence_id := msg_params.sequence_id
    left_arm_trajectory_message :=
      if control_larm then
        some (makeIHMCArmTrajectoryMessage
          (selectRelevantJointsConfiguration q getRelevantJointIndicesLeftArm)
          0 msg_params now)
      else none
    right_arm_trajectory_message :=
      if control_rarm then
        some (makeIHMCArmTrajectoryMessage
          (selectRelevantJointsConfiguration q getRelevantJointIndicesRightArm)
          1 msg_params now)
      else none
    chest_trajectory_message :=
      if control_chest then
        some (makeIHMCChestTrajectoryMessage (chestOri q) msg_params now)
      else none
    pelvis_trajectory_message :=
      if control_pelvis then
        some (makeIHMCPelvisTrajectoryMessage
          (selectRelevantJointsConfiguration q getRelevantJointIndicesPelvis)
          msg_params now)
      else none
    neck_trajectory_message :=
      if control_neck then
        some (makeIHMCNeckTrajectoryMessage
          (selectRelevantJointsConfiguration q getRelevantJointIndicesNeck)
          msg_params now)
      else none }

/-- IHMCMsgUtils::makeIHMCHomeLeftArmMessage. -/
def makeIHMCHomeLeftArmMessage (msg_params : IHMCMessageParameters) : GoHomeMessage :=
  { humanoid_body_part := HUMANOID_BODY_PART_ARM
    robot_side := some ROBOT_SIDE_LEFT
    trajectory_time := msg_params.go_home_params.trajectory_time }

/-- IHMCMsgUtils::makeIHMCHomeRightArmMessage. -/
def makeIHMCHomeRightArmMessage (msg_params : IHMCMessageParameters) : GoHomeMessage :=
  { humanoid_body_part := HUMANOID_BODY_PART_ARM
    robot_side := some ROBOT_SIDE_RIGHT
    trajectory_time := msg_params.go_home_params.trajectory_time }

/-- IHMCMsgUtils::makeIHMCHomeChestMessage. -/
def makeIHMCHomeChestMessage (msg_params : IHMCMessageParameters) : GoHomeMessage :=
  { humanoid_body_part := HUMANOID_BODY_PART_CHEST
    robot_side := none
    trajectory_time := msg_params.go_home_params.trajectory_time }

/-- IHMCMsgUtils::makeIHMCHomePelvisMessage. -/
def makeIHMCHomePelvisMessage (msg_params : IHMCMessageParameters) : GoHomeMessage :=
  { humanoid_body_part := HUMANOID_BODY_PART_PELVIS
    robot_side := none
    trajectory_time := msg_params.go_home_params.trajectory_time }

/-- The message parameters IHMCInterfaceNode::publishWholeBodyMessage builds:
defaults with the node's controlled links, and the three streaming overrides
(execution mode stream = 2, stream-integration duration 0.13, trajectory-point
time 0) when commands come from the controllers. -/
def nodeMsgParams (commands_from_controllers : Bool) (links : List Int) :
    IHMCMessageParameters :=
  let p := { defaultIHMCMessageParameters with controlled_links := links }
  if commands_from_controllers then
    { p with
      queueable_params :=
        { p.queueable_params with
          execution_mode := 2
          stream_integration_duration := (0.13 : ℚ) }
      traj_point_params := { p.traj_point_params with time := 0 } }
  else p

/-- IHMCInterfaceNode::publishWholeBodyMessage.  The publisher call is
modelled as the returned message list: everything the function hands to the
transport appears there, in order.  Note: the source performs no readiness
check here; the `publish_commands_` guard lives in the caller (`main`). -/
def publishWholeBodyMessage (chestOri : List ℚ → Quat) (now : Int)
    (s : NodeState) : NodeState × List WholeBodyTrajectoryMessage :=
  let s1 := { s with q_ := prepareConfigurationVector s }
  let msg_params := nodeMsgParams s1.commands_from_controllers_ s1.controlled_links_
  (s1, [makeIHMCWholeBodyTrajectoryMessage s1.q_ msg_params chestOri now])

/-- IHMCInterfaceNode::publishGoHomeMessage.  One message per set homing flag,
emitted in source order (left arm, right arm, chest, pelvis), each flag
cleared after its message; finally the go-home publish flag is recomputed. -/
def publishGoHomeMessage (s : NodeState) : NodeState × List GoHomeMessage :=
  let msg_params := defaultIHMCMessageParameters
  let step1 :=
    if s.home_left_arm_ then
      ({ s with home_left_arm_ := false }, [makeIHMCHomeLeftArmMessage msg_params])
    else (s, [])
  let step2 :=
    if step1.1.home_right_arm_ then
      ({ step1.1 with home_right_arm_ := false },
       step1.2 ++ [makeIHMCHomeRightArmMessage msg_params])
    else step1
  let step3 :=
    if step2.1.home_chest_ then
      ({ step2.1 with home_chest_ := false },
       step2.2 ++ [makeIHMCHomeChestMessage msg_params])
    else step2
  let step4 :=
    if step3.1.home_pelvis_ then
      ({ step3.1 with home_pelvis_ := false },
       step3.2 ++ [makeIHMCHomePelvisMessage msg_params])
    else step3
  (updatePublishGoHomeCommandFlag step4.1, step4.2)

/-- All queueing-properties sub-messages of an assembled whole-body message,
one per populated sub-part. -/
def collectQueueables (w : WholeBodyTrajectoryMessage) : List QueueableMessage :=
  (w.left_arm_trajectory_message.map
      (fun a => a.jointspace_trajectory.queueing_properties)).toList ++
  (w.right_arm_trajectory_message.map
      (fun a => a.jointspace_trajectory.queueing_properties)).toList ++
  (w.chest_trajectory_message.map
      (fun c => c.so3_trajectory.queueing_properties)).toList ++
  (w.pelvis_trajectory_message.map
      (fun p => p.se3_trajectory.queueing_properties)).toList ++
  (w.neck_trajectory_message.map
      (fun n => n.jointspace_trajectory.queueing_properties)).toList

/-- The time values of every trajectory point of an assembled whole-body
message (1-DoF jointspace points, SO3 points and SE3 points alike). -/
def collectPointTimes (w : WholeBodyTrajectoryMessage) : List ℚ :=
  let jsTimes := fun (js : JointspaceTrajectoryMessage) =>
    (js.joint_trajectory_messages.map
      (fun j => j.trajectory_points.map (fun p => p.time))).flatten
  (w.left_arm_trajectory_message.map
      (fun a => jsTimes a.jointspace_trajectory)).toList.flatten ++
  (w.right_arm_trajectory_message.map
      (fun a => jsTimes a.jointspace_trajectory)).toList.flatten ++
  (w.chest_trajectory_message.map
      (fun c => c.so3_trajectory.taskspace_trajectory_points.map
        (fun p => p.time))).toList.flatten ++
  (w.pelvis_trajectory_message.map
      (fun p => p.se3_trajectory.taskspace_trajectory_points.map
        (fun pt => pt.time))).toList.flatten ++
  (w.neck_trajectory_message.map
      (fun n => jsTimes n.jointspace_trajectory)).toList.flatten

/-! ## Helper lemmas -/

/-- If every index the joint loop will touch stays inside the name list, the
loop completes. -/
theorem jointCommandLoop_isSome (names : List String) :
    ∀ (vs : List ℚ) (i : Nat) (q : List ℚ), i + vs.length ≤ names.length →
      (jointCommandLoop names vs i q).isSome = true := by
  intro vs
  induction vs with
  | nil => intro i q _; simp [jointCommandLoop]
  | cons v vs ih =>
    intro i q h
    simp only [List.length_cons] at h
    have hi : i < names.length := by omega
    rw [jointCommandLoop]
    rw [List.get?_eq_getElem? names i, List.getElem?_eq_getElem hi]
    exact ih (i + 1) (applyJointPair q names[i] v) (by omega)

/-- The index-driven joint loop computes the fold of `applyJointPair` over the
zip of the (dropped) name list with the position list. -/
theorem jointCommandLoop_eq_foldl (names : List String) :
    ∀ (vs : List ℚ) (i : Nat) (q r : List ℚ),
      jointCommandLoop names vs i q = some r →
      r = ((names.drop i).zip vs).foldl (fun acc p => applyJointPair acc p.1 p.2) q := by
  intro vs
  induction vs with
  | nil => intro i q r h; simp [jointCommandLoop] at h; simp [h.symm]
  | cons v vs ih =>
    intro i q r h
    rw [jointCommandLoop] at h
    rcases hg : names.get? i with _ | nm
    · rw [hg] at h; exact absurd h (by simp)
    · rw [hg] at h
      have hi : i < names.length := by
        by_contra hlt
        rw [List.get?_eq_getElem? names i, List.getElem?_eq_none (by omega)] at hg
        exact absurd hg (by simp)
      have hnm : names[i] = nm := by
        rw [List.get?_eq_getElem? names i, List.getElem?_eq_getElem hi] at hg
        exact Option.some.inj hg
      rw [List.drop_eq_getElem_cons hi, List.zip_cons_cons, List.foldl_cons, hnm]
      exact ih (i + 1) (applyJointPair q nm v) r h

/-- A state returned by the joint-command handler when it was accepting
joints carries the loop result as its stored joint vector. -/
theorem jointCommandCallback_q_joint (msg : JointStateMsg) (s s' : NodeState)
    (hr : s.receive_joint_command_ = true)
    (h : jointCommandCallback msg s = some s') :
    jointCommandLoop msg.name msg.position 0 (zeroVec num_act_joint) = some s'.q_joint_ := by
  simp only [jointCommandCallback, hr, if_true] at h
  rcases hl : jointCommandLoop msg.name msg.position 0 (zeroVec num_act_joint) with _ | qj
  · rw [hl] at h; exact absurd h (by simp)
  · rw [hl] at h
    have h2 := Option.some.inj (by simpa using h)
    rw [← h2]
    rcases hc : s.commands_from_controllers_ with _ | _ <;>
      simp [hc, updateStopNodeFlag, updatePublishCommandsFlag]

/-! ## Claims -/

/-- C1: after any pose, link-set, or joint update handler returns, the derived
publish flag (`publish_commands_`, i.e. `canPublish()`) equals the conjunction
of the three received flags — so it is true iff all three have been received
and false on any strict subset.  The joint handler is stated over `Option.all`
because its embedding is partial (out-of-bounds name access is undefined
behaviour): whenever it returns, the invariant holds. -/
theorem canPublish_iff_all_received (s : NodeState) (tfm : TransformMsg)
    (lm : LinksMsg) (jm : JointStateMsg) :
    ((transformCallback tfm s).publish_commands_ =
       ((transformCallback tfm s).received_pelvis_transform_ &&
        (transformCallback tfm s).received_link_ids_ &&
        (transformCallback tfm s).received_joint_command_)) ∧
    ((controlledLinkIdsCallback lm s).publish_commands_ =
       ((controlledLinkIdsCallback lm s).received_pelvis_transform_ &&
        (controlledLinkIdsCallback lm s).received_link_ids_ &&
        (controlledLinkIdsCallback lm s).received_joint_command_)) ∧
    ((jointCommandCallback jm s).all (fun s' =>
       s'.publish_commands_ ==
         (s'.received_pelvis_transform_ && s'.received_link_ids_ &&
          s'.received_joint_command_)) = true) := by
  refine ⟨rfl, rfl, ?_⟩
  rcases hrecv : s.receive_joint_command_ with _ | _
  · simp [jointCommandCallback, hrecv, updateStopNodeFlag, updatePublishCommandsFlag]
  · rcases hl : jointCommandLoop jm.name jm.position 0 (zeroVec num_act_joint) with _ | qj
    · simp [jointCommandCallback, hrecv, hl]
    · simp only [jointCommandCallback, hrecv, hl, if_true]
      rcases hc : s.commands_from_controllers_ with _ | _ <;>
        simp [hc, updateStopNodeFlag, updatePublishCommandsFlag]

/-- C2 counterexample: in the controllers-mode initial state both accepting
flags are already false while `stop_node_` is false; the HOME-LEFTARM status
handler returns without recomputing the stop flag, so after this handler
returns `shouldStop()` is false even though both the pose-accepting and the
joints-accepting flag are false — refuting the claim for "any handler". -/
theorem shouldStop_claim_counterexample :
    ((statusCallback ⟨"HOME-LEFTARM"⟩ (initNode true)).receive_pelvis_transform_ = false) ∧
    ((statusCallback ⟨"HOME-LEFTARM"⟩ (initNode true)).receive_joint_command_ = false) ∧
    ((statusCallback ⟨"HOME-LEFTARM"⟩ (initNode true)).stop_node_ = false) :=
  ⟨rfl, rfl, rfl⟩

/-- C2 (amended): after any handler that recomputes the stop flag — the pose,
link-set and joint update handlers and the StartListening and StopListening
status events — `shouldStop()` (`stop_node_`) is true iff both the pose-accepting
and the joints-accepting flag are false, and the recomputation is independent
of the links-accepting flag in every state.  (Homing and unrecognized status
events do not recompute the flag, which is why the unrestricted claim fails.) -/
theorem shouldStop_iff_not_accepting (s : NodeState) (tfm : TransformMsg)
    (lm : LinksMsg) (jm : JointStateMsg) (b : Bool) :
    ((transformCallback tfm s).stop_node_ =
       (!(transformCallback tfm s).receive_pelvis_transform_ &&
        !(transformCallback tfm s).receive_joint_command_)) ∧
    ((controlledLinkIdsCallback lm s).stop_node_ =
       (!(controlledLinkIdsCallback lm s).receive_pelvis_transform_ &&
        !(controlledLinkIdsCallback lm s).receive_joint_command_)) ∧
    ((jointCommandCallback jm s).all (fun s' =>
       s'.stop_node_ ==
         (!s'.receive_pelvis_transform_ && !s'.receive_joint_command_)) = true) ∧
    ((statusCallback ⟨"START-LISTENING"⟩ s).stop_node_ =
       (!(statusCallback ⟨"START-LISTENING"⟩ s).receive_pelvis_transform_ &&
        !(statusCallback ⟨"START-LISTENING"⟩ s).receive_joint_command_)) ∧
    ((statusCallback ⟨"STOP-LISTENING"⟩ s).stop_node_ =
       (!(statusCallback ⟨"STOP-LISTENING"⟩ s).receive_pelvis_transform_ &&
        !(statusCallback ⟨"STOP-LISTENING"⟩ s).receive_joint_command_)) ∧
    ((updateStopNodeFlag { s with receive_link_ids_ := b }).stop_node_ =
       (updateStopNodeFlag s).stop_node_) := by
  refine ⟨rfl, rfl, ?_, rfl, rfl, rfl⟩
  rcases hrecv : s.receive_joint_command_ with _ | _
  · simp [jointCommandCallback, hrecv, updateStopNodeFlag, updatePublishCommandsFlag]
  · rcases hl : jointCommandLoop jm.name jm.position 0 (zeroVec num_act_joint) with _ | qj
    · simp [jointCommandCallback, hrecv, hl]
    · simp only [jointCommandCallback, hrecv, hl, if_true]
      rcases hc : s.commands_from_controllers_ with _ | _ <;>
        simp [hc, updateStopNodeFlag, updatePublishCommandsFlag]

/-- C3 counterexample: in the controllers-mode initial state `canPublish()`
(`publish_commands_`) is false, yet invoking the whole-body assembly still
emits a command — the core neither no-ops nor fails with an error kind, so
the claim that it "is refused by the core" is false. -/
theorem publish_refusal_counterexample :
    ((initNode true).publish_commands_ = false) ∧
    ((publishWholeBodyMessage (fun _ => ⟨0, 0, 0, 1⟩) 0 (initNode true)).2.length = 1) :=
  ⟨rfl, rfl⟩

/-- C3 (amended): home-command emission with no homing flags set is refused as
a no-op (nothing is published; only the derived go-home flag is recomputed),
but whole-body command assembly performs no readiness check at all: it always
assembles and emits exactly one command, even when `canPublish()` is false —
the readiness guard lives in the caller's driver loop, not in the core. -/
theorem publish_preconditions (chestOri : List ℚ → Quat) (now : Int) (s : NodeState)
    (h1 : s.home_left_arm_ = false) (h2 : s.home_right_arm_ = false)
    (h3 : s.home_chest_ = false) (h4 : s.home_pelvis_ = false) :
    ((publishWholeBodyMessage chestOri now s).2.length = 1) ∧
    ((publishGoHomeMessage s).2 = []) ∧
    ((publishGoHomeMessage s).1 = updatePublishGoHomeCommandFlag s) := by
  refine ⟨rfl, ?_, ?_⟩ <;> simp [publishGoHomeMessage, h1, h2, h3, h4]

theorem publish_preconditions_witness :
    ((publishWholeBodyMessage (fun _ => ⟨0, 0, 0, 1⟩) 0 (initNode true)).2.length = 1) ∧
    ((publishGoHomeMessage (initNode true)).2 = []) ∧
    ((publishGoHomeMessage (initNode true)).1 =
       updatePublishGoHomeCommandFlag (initNode true)) :=
  publish_preconditions (fun _ => ⟨0, 0, 0, 1⟩) 0 (initNode true) rfl rfl rfl rfl

/-- C4: a joint update processed while accepting joints is a full replace:
the stored joint vector afterwards is the fold, over the (name, value) pairs
of the message, of "look the name up; if found, write the value at the
joint's slot offset by the virtual-joint count; otherwise change nothing",
starting from a freshly zeroed vector of length `num_act_joint`. -/
theorem jointUpdate_full_replace (s : NodeState) (msg : JointStateMsg) (s' : NodeState)
    (hr : s.receive_joint_command_ = true)
    (h : jointCommandCallback msg s = some s') :
    s'.q_joint_ =
      (msg.name.zip msg.position).foldl
        (fun acc p => applyJointPair acc p.1 p.2) (zeroVec num_act_joint) := by
  have hl := jointCommandCallback_q_joint msg s s' hr h
  have h2 := jointCommandLoop_eq_foldl msg.name msg.position 0
    (zeroVec num_act_joint) s'.q_joint_ hl
  simpa using h2

theorem jointUpdate_full_replace_witness :
    (({ initNode true with receive_joint_command_ := true } : NodeState).receive_joint_command_
        = true) ∧
    (((jointCommandCallback ⟨["torsoYaw", "mystery"], [5, 9]⟩
         { initNode true with receive_joint_command_ := true }).getD
       (initNode true)).q_joint_ =
      ((["torsoYaw", "mystery"].zip [(5 : ℚ), 9]).foldl
        (fun acc p => applyJointPair acc p.1 p.2) (zeroVec num_act_joint))) := by
  refine ⟨rfl, ?_⟩
  exact jointUpdate_full_replace
    { initNode true with receive_joint_command_ := true }
    ⟨["torsoYaw", "mystery"], [5, 9]⟩
    ((jointCommandCallback ⟨["torsoYaw", "mystery"], [5, 9]⟩
        { initNode true with receive_joint_command_ := true }).getD (initNode true))
    rfl rfl

/-- C8: the STOP-LISTENING status signal, from any state, sets all three
accepting flags and all three received flags to false, after which
`canPublish()` is false and `shouldStop()` is true. -/
theorem stopListening_resets (s : NodeState) :
    ((statusCallback ⟨"STOP-LISTENING"⟩ s).receive_pelvis_transform_ = false) ∧
    ((statusCallback ⟨"STOP-LISTENING"⟩ s).receive_link_ids_ = false) ∧
    ((statusCallback ⟨"STOP-LISTENING"⟩ s).receive_joint_command_ = false) ∧
    ((statusCallback ⟨"STOP-LISTENING"⟩ s).received_pelvis_transform_ = false) ∧
    ((statusCallback ⟨"STOP-LISTENING"⟩ s).received_link_ids_ = false) ∧
    ((statusCallback ⟨"STOP-LISTENING"⟩ s).received_joint_command_ = false) ∧
    ((statusCallback ⟨"STOP-LISTENING"⟩ s).publish_commands_ = false) ∧
    ((statusCallback ⟨"STOP-LISTENING"⟩ s).stop_node_ = true) :=
  ⟨rfl, rfl, rfl, rfl, rfl, rfl, rfl, rfl⟩

/-- C9: building pending home commands emits exactly one message per flagged
body part, in the fixed source order left arm, right arm, chest, pelvis (the
arm messages carrying a side), clears every homing flag, and recomputes the
derived go-home flag (necessarily to false).  In particular, requesting
HOME-LEFTARM and building once yields exactly one left-arm home command
(body part Arm, side Left), and building again with no new request yields an
empty sequence. -/
theorem goHome_build (s : NodeState) :
    ((publishGoHomeMessage s).2 =
       (if s.home_left_arm_ then [makeIHMCHomeLeftArmMessage defaultIHMCMessageParameters]
        else []) ++
       (if s.home_right_arm_ then [makeIHMCHomeRightArmMessage defaultIHMCMessageParameters]
        else []) ++
       (if s.home_chest_ then [makeIHMCHomeChestMessage defaultIHMCMessageParameters]
        else []) ++
       (if s.home_pelvis_ then [makeIHMCHomePelvisMessage defaultIHMCMessageParameters]
        else [])) ∧
    ((publishGoHomeMessage s).1.home_left_arm_ = false) ∧
    ((publishGoHomeMessage s).1.home_right_arm_ = false) ∧
    ((publishGoHomeMessage s).1.home_chest_ = false) ∧
    ((publishGoHomeMessage s).1.home_pelvis_ = false) ∧
    ((publishGoHomeMessage s).1.publish_go_home_command_ = false) ∧
    ((publishGoHomeMessage (statusCallback ⟨"HOME-LEFTARM"⟩ (initNode true))).2 =
       [makeIHMCHomeLeftArmMessage defaultIHMCMessageParameters]) ∧
    ((makeIHMCHomeLeftArmMessage defaultIHMCMessageParameters).humanoid_body_part =
       HUMANOID_BODY_PART_ARM) ∧
    ((makeIHMCHomeLeftArmMessage defaultIHMCMessageParameters).robot_side =
       some ROBOT_SIDE_LEFT) ∧
    ((publishGoHomeMessage
        (publishGoHomeMessage (statusCallback ⟨"HOME-LEFTARM"⟩ (initNode true))).1).2 = []) := by
  refine ⟨?_, ?_, ?_, ?_, ?_, ?_, rfl, rfl, rfl, rfl⟩ <;>
    rcases h1 : s.home_left_arm_ with _ | _ <;>
    rcases h2 : s.home_right_arm_ with _ | _ <;>
    rcases h3 : s.home_chest_ with _ | _ <;>
    rcases h4 : s.home_pelvis_ with _ | _ <;>
      simp [publishGoHomeMessage, h1, h2, h3, h4, updatePublishGoHomeCommandFlag]

/-- C10: the joint-update handler's loop runs over the length of the position
list and reads the name list at the same index, so the handler is defined
(returns a state) whenever the name list is at least as long as the position
list — and a message whose position list is longer than its name list falls
outside its domain (the embedding returns `none`, mirroring the
out-of-bounds read). -/
theorem jointCallback_domain (s : NodeState) (msg : JointStateMsg)
    (h : msg.position.length ≤ msg.name.length) :
    ((jointCommandCallback msg s).isSome = true) ∧
    (jointCommandCallback ⟨["j1"], [1, 2]⟩
       { initNode true with receive_joint_command_ := true } = none) := by
  constructor
  · rcases hrecv : s.receive_joint_command_ with _ | _
    · simp [jointCommandCallback, hrecv]
    · have htot := jointCommandLoop_isSome msg.name msg.position 0
        (zeroVec num_act_joint) (by omega)
      rcases hl : jointCommandLoop msg.name msg.position 0 (zeroVec num_act_joint)
        with _ | qj
      · rw [hl] at htot; exact absurd htot (by simp)
      · simp [jointCommandCallback, hrecv, hl]
  · rfl

theorem jointCallback_domain_witness :
    ((jointCommandCallback ⟨["torsoYaw"], [5]⟩ (initNode true)).isSome = true) ∧
    (jointCommandCallback ⟨["j1"], [1, 2]⟩
       { initNode true with receive_joint_command_ := true } = none) :=
  jointCallback_domain (initNode true) ⟨["torsoYaw"], [(5 : ℚ)]⟩ (by decide)

/-- C5: selecting the left-arm configuration copies the five modeled arm DOF
values from their listed slots and substitutes 0 for the two sentinel wrist
entries, producing the 7-element jointspace target [a,b,c,d,e,0,0]. -/
theorem leftArm_select (q : List ℚ) (a b c d e : ℚ)
    (h1 : q.get? valkyrie_joint.leftShoulderPitch = some a)
    (h2 : q.get? valkyrie_joint.leftShoulderRoll = some b)
    (h3 : q.get? valkyrie_joint.leftShoulderYaw = some c)
    (h4 : q.get? valkyrie_joint.leftElbowPitch = some d)
    (h5 : q.get? valkyrie_joint.leftForearmYaw = some e) :
    selectRelevantJointsConfiguration q getRelevantJointIndicesLeftArm =
      [a, b, c, d, e, 0, 0] := by
  have e1 : q.getD valkyrie_joint.leftShoulderPitch 0 = a := by
    rw [show q.getD valkyrie_joint.leftShoulderPitch 0 =
          (q.get? valkyrie_joint.leftShoulderPitch).getD 0 from rfl, h1]
    rfl
  have e2 : q.getD valkyrie_joint.leftShoulderRoll 0 = b := by
    rw [show q.getD valkyrie_joint.leftShoulderRoll 0 =
          (q.get? valkyrie_joint.leftShoulderRoll).getD 0 from rfl, h2]
    rfl
  have e3 : q.getD valkyrie_joint.leftShoulderYaw 0 = c := by
    rw [show q.getD valkyrie_joint.leftShoulderYaw 0 =
          (q.get? valkyrie_joint.leftShoulderYaw).getD 0 from rfl, h3]
    rfl
  have e4 : q.getD valkyrie_joint.leftElbowPitch 0 = d := by
    rw [show q.getD valkyrie_joint.leftElbowPitch 0 =
          (q.get? valkyrie_joint.leftElbowPitch).getD 0 from rfl, h4]
    rfl
  have e5 : q.getD valkyrie_joint.leftForearmYaw 0 = e := by
    rw [show q.getD valkyrie_joint.leftForearmYaw 0 =
          (q.get? valkyrie_joint.leftForearmYaw).getD 0 from rfl, h5]
    rfl
  simp only [selectRelevantJointsConfiguration, getRelevantJointIndicesLeftArm,
    List.map_cons, List.map_nil]
  norm_num [valkyrie_joint.leftShoulderPitch, valkyrie_joint.leftShoulderRoll,
    valkyrie_joint.leftShoulderYaw, valkyrie_joint.leftElbowPitch,
    valkyrie_joint.leftForearmYaw] at e1 e2 e3 e4 e5 ⊢
  exact ⟨e1, e2, e3, e4, e5⟩

theorem leftArm_select_witness :
    (((List.range 35).map (fun n => (n : ℚ))).get? valkyrie_joint.leftShoulderPitch
        = some 22) ∧
    (selectRelevantJointsConfiguration ((List.range 35).map (fun n => (n : ℚ)))
        getRelevantJointIndicesLeftArm = [22, 23, 24, 25, 26, 0, 0]) :=
  ⟨by decide,
   leftArm_select ((List.range 35).map (fun n => (n : ℚ))) 22 23 24 25 26
     (by decide) (by decide) (by decide) (by decide) (by decide)⟩

/-- C6: with the pelvis link in the controlled-link set, assembling the
whole-body command from a configuration whose first seven slots are
[1,2,3,0,0,0,1] produces a pelvis sub-part whose single trajectory point has
position exactly (1,2,3) and orientation exactly (0,0,0,1), read straight
from the root-pose region — the result does not depend on the joint region
(`rest`) or on the kinematics collaborator (`chestOri`). -/
theorem pelvis_pose_exact (rest : List ℚ) (params : IHMCMessageParameters)
    (chestOri : List ℚ → Quat) (now : Int)
    (h : checkControlledLink params.controlled_links valkyrie_link.pelvis = true) :
    ((makeIHMCWholeBodyTrajectoryMessage (([1, 2, 3, 0, 0, 0, 1] : List ℚ) ++ rest)
        params chestOri now).pelvis_trajectory_message).map
        (fun m => m.se3_trajectory.taskspace_trajectory_points.map
          (fun p => (p.position, p.orientation)))
      = some [(⟨1, 2, 3⟩, ⟨0, 0, 0, 1⟩)] := by
  simp [makeIHMCWholeBodyTrajectoryMessage, h, makeIHMCPelvisTrajectoryMessage,
    makeIHMCSE3TrajectoryMessage, makeIHMCSE3TrajectoryPointMessage, getPelvisPose,
    selectRelevantJointsConfiguration, getRelevantJointIndicesPelvis,
    valkyrie_joint.virtual_X, valkyrie_joint.virtual_Y, valkyrie_joint.virtual_Z,
    valkyrie_joint.virtual_Rx, valkyrie_joint.virtual_Ry, valkyrie_joint.virtual_Rz,
    valkyrie_joint.virtual_Rw]

theorem pelvis_pose_exact_witness :
    (checkControlledLink [valkyrie_link.pelvis] valkyrie_link.pelvis = true) ∧
    (((makeIHMCWholeBodyTrajectoryMessage (([1, 2, 3, 0, 0, 0, 1] : List ℚ) ++ [])
        { defaultIHMCMessageParameters with controlled_links := [valkyrie_link.pelvis] }
        (fun _ => ⟨0, 0, 0, 1⟩) 0).pelvis_trajectory_message).map
        (fun m => m.se3_trajectory.taskspace_trajectory_points.map
          (fun p => (p.position, p.orientation)))
      = some [(⟨1, 2, 3⟩, ⟨0, 0, 0, 1⟩)]) :=
  ⟨rfl, pelvis_pose_exact []
    { defaultIHMCMessageParameters with controlled_links := [valkyrie_link.pelvis] }
    (fun _ => ⟨0, 0, 0, 1⟩) 0 rfl⟩

/-- Every queueing-properties sub-message of an assembled whole-body command
is the one queueable message built from the shared parameters. -/
theorem mem_collectQueueables_eq (q : List ℚ) (params : IHMCMessageParameters)
    (chestOri : List ℚ → Quat) (now : Int) (qm : QueueableMessage)
    (h : qm ∈ collectQueueables
          (makeIHMCWholeBodyTrajectoryMessage q params chestOri now)) :
    qm = makeIHMCQueueableMessage params now := by
  rcases hA : checkControlledLink params.controlled_links valkyrie_link.leftPalm with _ | _ <;>
  rcases hB : checkControlledLink params.controlled_links valkyrie_link.rightPalm with _ | _ <;>
  rcases hC : checkControlledLink params.controlled_links valkyrie_link.torso with _ | _ <;>
  rcases hD : checkControlledLink params.controlled_links valkyrie_link.pelvis with _ | _ <;>
  rcases hE : checkControlledLink params.controlled_links valkyrie_link.head with _ | _ <;>
    simp [collectQueueables, makeIHMCWholeBodyTrajectoryMessage, hA, hB, hC, hD, hE,
      makeIHMCArmTrajectoryMessage, makeIHMCJointspaceTrajectoryMessage,
      makeIHMCChestTrajectoryMessage, makeIHMCSO3TrajectoryMessage,
      makeIHMCPelvisTrajectoryMessage, makeIHMCSE3TrajectoryMessage,
      makeIHMCNeckTrajectoryMessage] at h <;>
    tauto

/-- Every trajectory-point time of an assembled whole-body command is the
shared trajectory-point time parameter. -/
theorem mem_collectPointTimes_eq (q : List ℚ) (params : IHMCMessageParameters)
    (chestOri : List ℚ → Quat) (now : Int) (t : ℚ)
    (h : t ∈ collectPointTimes
          (makeIHMCWholeBodyTrajectoryMessage q params chestOri now)) :
    t = params.traj_point_params.time := by
  rcases hA : checkControlledLink params.controlled_links valkyrie_link.leftPalm with _ | _ <;>
  rcases hB : checkControlledLink params.controlled_links valkyrie_link.rightPalm with _ | _ <;>
  rcases hC : checkControlledLink params.controlled_links valkyrie_link.torso with _ | _ <;>
  rcases hD : checkControlledLink params.controlled_links valkyrie_link.pelvis with _ | _ <;>
  rcases hE : checkControlledLink params.controlled_links valkyrie_link.head with _ | _ <;>
    simp [collectPointTimes, makeIHMCWholeBodyTrajectoryMessage, hA, hB, hC, hD, hE,
      makeIHMCArmTrajectoryMessage, makeIHMCJointspaceTrajectoryMessage,
      makeIHMCOneDoFJointTrajectoryMessage, makeIHMCTrajectoryPoint1DMessage,
      makeIHMCChestTrajectoryMessage, makeIHMCSO3TrajectoryMessage,
      makeIHMCSO3TrajectoryPointMessage, makeIHMCPelvisTrajectoryMessage,
      makeIHMCSE3TrajectoryMessage, makeIHMCSE3TrajectoryPointMessage,
      makeIHMCNeckTrajectoryMessage, selectRelevantJointsConfiguration,
      getRelevantJointIndicesLeftArm, getRelevantJointIndicesRightArm,
      getRelevantJointIndicesNeck, getRelevantJointIndicesPelvis] at h <;>
    tauto

/-- C7: for every command the node assembles, in continuous/streaming mode
(commands from controllers) every queueable sub-message carries execution
mode stream (2) with stream-integration duration 0.13 and every trajectory
point carries time 0; in one-shot mode every queueable sub-message carries
execution mode override (0) with no stream-integration duration set, and
every trajectory point carries time 1.0; and the stream-integration-duration
field is ever set only when the execution mode is stream (2). -/
theorem mode_dependent_fields (chestOri : List ℚ → Quat) (now : Int) (s : NodeState) :
    (s.commands_from_controllers_ = true →
      ∀ w ∈ (publishWholeBodyMessage chestOri now s).2,
        (∀ qm ∈ collectQueueables w,
           qm.execution_mode = 2 ∧
           qm.stream_integration_duration = some (0.13 : ℚ)) ∧
        (∀ t ∈ collectPointTimes w, t = 0)) ∧
    (s.commands_from_controllers_ = false →
      ∀ w ∈ (publishWholeBodyMessage chestOri now s).2,
        (∀ qm ∈ collectQueueables w,
           qm.execution_mode = 0 ∧
           qm.stream_integration_duration = none) ∧
        (∀ t ∈ collectPointTimes w, t = 1)) ∧
    (∀ (params : IHMCMessageParameters) (n : Int),
       ((makeIHMCQueueableMessage params n).stream_integration_duration).isSome = true →
       params.queueable_params.execution_mode = 2) := by
  refine ⟨?_, ?_, ?_⟩
  · intro hc w hw
    simp only [publishWholeBodyMessage, hc, List.mem_singleton] at hw
    subst hw
    constructor
    · intro qm hqm
      rw [mem_collectQueueables_eq _ _ _ _ _ hqm]
      constructor <;>
        simp [makeIHMCQueueableMessage, nodeMsgParams, defaultIHMCMessageParameters]
    · intro t ht
      rw [mem_collectPointTimes_eq _ _ _ _ _ ht]
      simp [nodeMsgParams, defaultIHMCMessageParameters]
  · intro hc w hw
    simp only [publishWholeBodyMessage, hc, List.mem_singleton] at hw
    subst hw
    constructor
    · intro qm hqm
      rw [mem_collectQueueables_eq _ _ _ _ _ hqm]
      constructor <;>
        simp [makeIHMCQueueableMessage, nodeMsgParams, defaultIHMCMessageParameters]
    · intro t ht
      rw [mem_collectPointTimes_eq _ _ _ _ _ ht]
      simp [nodeMsgParams, defaultIHMCMessageParameters]
  · intro params n h
    by_cases h2 : params.queueable_params.execution_mode = 2
    · exact h2
    · simp [makeIHMCQueueableMessage, h2] at h

theorem mode_dependent_fields_witness :
    ((makeIHMCQueueableMessage
        (nodeMsgParams true [valkyrie_link.pelvis]) 0).execution_mode = 2 ∧
     (makeIHMCQueueableMessage
        (nodeMsgParams true [valkyrie_link.pelvis]) 0).stream_integration_duration =
       some (0.13 : ℚ)) ∧
    ((makeIHMCQueueableMessage
        (nodeMsgParams false [valkyrie_link.pelvis]) 0).execution_mode = 0 ∧
     (makeIHMCQueueableMessage
        (nodeMsgParams false [valkyrie_link.pelvis]) 0).stream_integration_duration =
       none) := by
  have hs := mode_dependent_fields (fun _ => (⟨0, 0, 0, 1⟩ : Quat)) 0
    { initNode true with controlled_links_ := [valkyrie_link.pelvis] }
  have ho := mode_dependent_fields (fun _ => (⟨0, 0, 0, 1⟩ : Quat)) 0
    { initNode false with controlled_links_ := [valkyrie_link.pelvis] }
  refine ⟨?_, ?_⟩
  · exact (hs.1 rfl _ (List.mem_singleton.mpr rfl)).1 _
      (show _ ∈ collectQueueables _ from List.mem_singleton.mpr rfl)
  · exact (ho.2.1 rfl _ (List.mem_singleton.mpr rfl)).1 _
      (show _ ∈ collectQueueables _ from List.mem_singleton.mpr rfl)

end IHMCMsg
